import Mathlib

/-!
Verification of the releasy client library (`src/client.rs`, `src/error.rs`,
`src/models.rs`) against its specification.

The client is a thin synchronous HTTP binding.  The HTTP transport (`ureq`)
and the JSON codec (`serde`) are external collaborators: their outcomes are
modelled as explicit inputs (a response record carrying the status, the
`Location` header as text, and the results of the two body-consuming
operations `read_json` and `read_to_string`; a parameter standing for
`serde_json::from_str::<ErrorBody>(...).ok()`).  Everything the library
itself computes — header assembly, auth dispatch, query-parameter assembly,
base-URL normalization, and response classification — is translated
definition by definition from the source.
-/

namespace Releasy

/-- Authentication strategy for API requests (`Auth` in `client.rs`). -/
inductive Auth where
  | None
  | AdminKey (key : String)
  | ApiKey (key : String)
  | OperatorJwt (token : String)
deriving DecidableEq, Repr

/-- Error detail `{ code, message }` (`ErrorDetail` in `models.rs`). -/
structure ErrorDetail where
  code : String
  message : String
deriving DecidableEq, Repr

/-- Canonical error body `{ error: { code, message } }` (`ErrorBody` in `models.rs`). -/
structure ErrorBody where
  error : ErrorDetail
deriving DecidableEq, Repr

/-- Opaque transport-library error (`ureq::Error`); identified by its message only. -/
structure UreqError where
  msg : String
deriving DecidableEq, Repr

/-- The client error taxonomy (`Error` in `error.rs`). -/
inductive Error where
  | Api (status : Nat) (error : Option ErrorBody) (body : Option String)
  | Transport (err : UreqError)
  | InvalidBaseUrl (url : String)
  | MissingLocationHeader
deriving DecidableEq, Repr

/-- `Error::status()`: the HTTP status code for API errors, `None` otherwise. -/
def Error.status : Error → Option Nat
  | .Api status _ _ => some status
  | _ => none

/-- Resolved download redirect location (`DownloadResolution` in `client.rs`). -/
structure DownloadResolution where
  location : String
deriving DecidableEq, Repr

/-- Opaque transport agent (`ureq::Agent`); identified by a configuration id. -/
structure Agent where
  cfgId : Nat
deriving DecidableEq, Repr

/-- Client state (`Client` in `client.rs`). -/
structure Client where
  base_url : String
  auth : Auth
  user_agent : Option String
  agent : Agent
deriving DecidableEq, Repr

/-- `Client::with_auth`: clone the client and replace its auth. -/
def Client.with_auth (c : Client) (auth : Auth) : Client :=
  { c with auth := auth }

/--
A request under construction (`ureq::RequestBuilder`), abstracted to the two
pieces the library manipulates: the ordered header list and the ordered
query-parameter list.
-/
structure RequestBuilder where
  headers : List (String × String)
  queryParams : List (String × String)
deriving DecidableEq, Repr

/-- `RequestBuilder::header`: append a header. -/
def RequestBuilder.header (r : RequestBuilder) (name value : String) : RequestBuilder :=
  { r with headers := r.headers ++ [(name, value)] }

/-- `RequestBuilder::query`: append a query parameter. -/
def RequestBuilder.query (r : RequestBuilder) (key value : String) : RequestBuilder :=
  { r with queryParams := r.queryParams ++ [(key, value)] }

/-- A freshly created request builder (`agent.get(url)` etc.): no headers, no query. -/
def newRequest : RequestBuilder :=
  { headers := [], queryParams := [] }

/-- `Client::apply_auth`: attach the auth header selected by the active variant. -/
def apply_auth (c : Client) (request : RequestBuilder) : RequestBuilder :=
  match c.auth with
  | .None => request
  | .AdminKey key => request.header "x-releasy-admin-key" key
  | .ApiKey key => request.header "x-releasy-api-key" key
  | .OperatorJwt token => request.header "Authorization" ("Bearer " ++ token)

/-- `Client::apply_headers`: `Accept`, optional `User-Agent`, then auth. -/
def apply_headers (c : Client) (request : RequestBuilder) : RequestBuilder :=
  let request := request.header "Accept" "application/json"
  let request :=
    match c.user_agent with
    | some user_agent => request.header "User-Agent" user_agent
    | none => request
  apply_auth c request

/-- The three header names any auth variant may use. -/
def isAuthHeaderName (name : String) : Bool :=
  name == "x-releasy-admin-key" || name == "x-releasy-api-key" || name == "Authorization"

/-- The auth headers the spec assigns to each variant. -/
def authHeadersOf : Auth → List (String × String)
  | .None => []
  | .AdminKey key => [("x-releasy-admin-key", key)]
  | .ApiKey key => [("x-releasy-api-key", key)]
  | .OperatorJwt token => [("Authorization", "Bearer " ++ token)]

theorem header_headers (r : RequestBuilder) (k v : String) :
    (r.header k v).headers = r.headers ++ [(k, v)] := rfl

theorem apply_auth_headers (c : Client) (r : RequestBuilder) :
    (apply_auth c r).headers = r.headers ++ authHeadersOf c.auth := by
  cases h : c.auth <;> simp [apply_auth, h, authHeadersOf, RequestBuilder.header]

theorem apply_headers_filter_auth (c : Client) (r : RequestBuilder) :
    ((apply_headers c r).headers.filter (fun h => isAuthHeaderName h.1)) =
      (r.headers.filter (fun h => isAuthHeaderName h.1)) ++ authHeadersOf c.auth := by
  cases hu : c.user_agent <;> cases ha : c.auth <;>
    simp [apply_headers, apply_auth, hu, ha, authHeadersOf, RequestBuilder.header,
      List.filter_append, isAuthHeaderName]

/--
Claim C1: every request assembled by `apply_headers` carries exactly the auth
headers that the active `Auth` variant determines — none for `Auth::None`,
`x-releasy-admin-key` for `AdminKey`, `x-releasy-api-key` for `ApiKey`,
`Authorization: Bearer <token>` for `OperatorJwt` — and never more than one,
regardless of the headers already present on entry being auth-free, of the
user-agent setting, or of the credential strings.
-/
theorem auth_header_exclusive :
    (∀ (c : Client),
      ((apply_headers c newRequest).headers.filter (fun h => isAuthHeaderName h.1)) =
        authHeadersOf c.auth) ∧
    (∀ (c : Client), (authHeadersOf c.auth).length ≤ 1) ∧
    (∀ (c : Client),
      ((apply_headers c newRequest).headers.countP (fun h => isAuthHeaderName h.1)) =
        (authHeadersOf c.auth).length) ∧
    authHeadersOf Auth.None = [] ∧
    (∀ key, authHeadersOf (Auth.AdminKey key) = [("x-releasy-admin-key", key)]) ∧
    (∀ key, authHeadersOf (Auth.ApiKey key) = [("x-releasy-api-key", key)]) ∧
    (∀ token, authHeadersOf (Auth.OperatorJwt token) = [("Authorization", "Bearer " ++ token)]) := by
  refine ⟨?_, ?_, ?_, rfl, fun _ => rfl, fun _ => rfl, fun _ => rfl⟩
  · intro c
    have := apply_headers_filter_auth c newRequest
    simpa [newRequest] using this
  · intro c
    cases c.auth <;> simp [authHeadersOf]
  · intro c
    have h := apply_headers_filter_auth c newRequest
    have : ((apply_headers c newRequest).headers.countP (fun h => isAuthHeaderName h.1)) =
        ((apply_headers c newRequest).headers.filter (fun h => isAuthHeaderName h.1)).length := by
      simp [List.countP_eq_length_filter]
    rw [this, h]
    simp [newRequest]

/--
A completed HTTP response as the classifier sees it
(`ureq::http::Response<ureq::Body>`): the status code, the `Location` header
read as text when present and readable, and the outcomes of the two external
body-consuming operations the library may invoke (`read_json::<T>()` and
`read_to_string()`).
-/
structure HttpResponse (T : Type) where
  status : Nat
  location : Option String
  read_json : Except UreqError T
  read_to_string : Except UreqError String
deriving Repr

/--
`Client::error_from_response`: read the body as text (a read failure becomes
a `Transport` error via `return`), try to parse it as `ErrorBody`, and build
`Error::Api` with the status, the optional parsed body, and the raw text
(omitted when empty).  `fromStr` stands for the external
`serde_json::from_str::<ErrorBody>(...).ok()`.
-/
def error_from_response {T : Type} (fromStr : String → Option ErrorBody)
    (response : HttpResponse T) (status : Nat) : Error :=
  match response.read_to_string with
  | .error err => Error.Transport err
  | .ok body =>
    let parsed := fromStr body
    Error.Api status parsed (if body.isEmpty then none else some body)

/--
`Client::parse_json_response`: a status in `[200,300)` decodes the body as
the endpoint's response type (a decode failure propagates through `?` as a
`Transport` error); any other status goes to `error_from_response`.
-/
def parse_json_response {T : Type} (fromStr : String → Option ErrorBody)
    (response : HttpResponse T) : Except Error T :=
  let status := response.status
  if 200 ≤ status ∧ status < 300 then
    match response.read_json with
    | .ok parsed => .ok parsed
    | .error err => .error (Error.Transport err)
  else
    .error (error_from_response fromStr response status)

/--
`Client::parse_empty_response`: success exactly when the status equals the
per-endpoint expected code; the body is never touched on success.
-/
def parse_empty_response {T : Type} (fromStr : String → Option ErrorBody)
    (response : HttpResponse T) (expected_status : Nat) : Except Error Unit :=
  let status := response.status
  if status = expected_status then
    .ok ()
  else
    .error (error_from_response fromStr response status)

/--
Response classification of `Client::resolve_download_token`: 302 with a
readable `Location` header yields the resolution; 302 without one yields
`MissingLocationHeader`; anything else goes down the generic error path.
-/
def resolve_download_token {T : Type} (fromStr : String → Option ErrorBody)
    (response : HttpResponse T) : Except Error DownloadResolution :=
  let status := response.status
  if status = 302 then
    match response.location with
    | some location => .ok { location := location }
    | none => .error Error.MissingLocationHeader
  else
    .error (error_from_response fromStr response status)

/-- Opaque handle for an opened local file (`std::fs::File`). -/
structure FileHandle where
  fd : Nat
deriving DecidableEq, Repr

/--
`Client::upload_presigned_artifact`: a file-open failure is returned as a
`Transport` error before any request is sent; otherwise the PUT outcome is
classified — any 2xx status is success, anything else goes down the generic
error path (a send failure propagates through `?` as `Transport`).
`file_open` is the outcome of `File::open`; `put_result` the outcome of
`agent.put(upload_url).send(file)`.
-/
def upload_presigned_artifact (fromStr : String → Option ErrorBody)
    (file_open : Except UreqError FileHandle)
    (put_result : Except UreqError (HttpResponse Unit)) : Except Error Unit :=
  match file_open with
  | .error err => .error (Error.Transport err)
  | .ok _file =>
    match put_result with
    | .error err => .error (Error.Transport err)
    | .ok response =>
      let status := response.status
      if 200 ≤ status ∧ status < 300 then
        .ok ()
      else
        .error (error_from_response fromStr response status)

/-- Classification used by `Client::reset_credentials`: expected status 202. -/
def reset_credentials_handle {T : Type} (fromStr : String → Option ErrorBody)
    (response : HttpResponse T) : Except Error Unit :=
  parse_empty_response fromStr response 202

/-- Classification used by `Client::delete_entitlement`: expected status 204. -/
def delete_entitlement_handle {T : Type} (fromStr : String → Option ErrorBody)
    (response : HttpResponse T) : Except Error Unit :=
  parse_empty_response fromStr response 204

/-- Classification used by `Client::delete_release`: expected status 204. -/
def delete_release_handle {T : Type} (fromStr : String → Option ErrorBody)
    (response : HttpResponse T) : Except Error Unit :=
  parse_empty_response fromStr response 204

/--
Claim C2: on the generic error path, once the body has been read as text
`body`, the classifier always returns `Error::Api` carrying the numeric
status, the optional parsed `{code, message}` (whatever the parser returns,
`none` on parse failure), and the raw text (`none` exactly when the body is
empty); in particular a parser that fails on everything still yields an
`Api` error, never a different error type.
-/
theorem error_body_parse_tolerant :
    (∀ {T : Type} (fromStr : String → Option ErrorBody)
        (st : Nat) (loc : Option String) (rj : Except UreqError T) (body : String) (status : Nat),
      error_from_response fromStr ⟨st, loc, rj, .ok body⟩ status =
        Error.Api status (fromStr body) (if body.isEmpty then none else some body)) ∧
    (∀ {T : Type} (st : Nat) (loc : Option String) (rj : Except UreqError T)
        (body : String) (status : Nat),
      error_from_response (fun _ => none) ⟨st, loc, rj, .ok body⟩ status =
        Error.Api status none (if body.isEmpty then none else some body)) ∧
    (∀ {T : Type} (fromStr : String → Option ErrorBody)
        (st : Nat) (loc : Option String) (rj : Except UreqError T) (body : String) (status : Nat),
      Error.status (error_from_response fromStr ⟨st, loc, rj, .ok body⟩ status) = some status) := by
  refine ⟨?_, ?_, ?_⟩ <;>
    · intros
      simp [error_from_response, Error.status]

/--
Claim C10: when reading the error-path body as text fails, the classifier
returns a `Transport` error — not an `Api` error — and `Error::status()` on
that result is `none`, even though a status outside the success set was
received.
-/
theorem error_path_body_read_failure :
    (∀ {T : Type} (fromStr : String → Option ErrorBody)
        (st : Nat) (loc : Option String) (rj : Except UreqError T) (err : UreqError) (status : Nat),
      error_from_response fromStr ⟨st, loc, rj, .error err⟩ status = Error.Transport err) ∧
    (∀ {T : Type} (fromStr : String → Option ErrorBody)
        (st : Nat) (loc : Option String) (rj : Except UreqError T) (err : UreqError) (status : Nat),
      Error.status (error_from_response fromStr ⟨st, loc, rj, .error err⟩ status) = none) := by
  refine ⟨?_, ?_⟩ <;>
    · intros
      simp [error_from_response, Error.status]

/-- Whether a classification result is an `Error::Api` error. -/
def returnsApiError {T : Type} : Except Error T → Bool
  | .error (.Api _ _ _) => true
  | _ => false

/--
Claim C4 as stated is too strong: on a status outside `[200,300)`, when
reading the response body as text fails, `parse_json_response` returns a
`Transport` error, not an API error.  Concretely, status 500 with a failing
`read_to_string` yields `Error::Transport`.
-/
theorem json_response_api_error_cex :
    parse_json_response (fun _ => none)
        (⟨500, none, Except.error ⟨"decode failed"⟩, Except.error ⟨"connection reset"⟩⟩ :
          HttpResponse Unit) =
      Except.error (Error.Transport ⟨"connection reset"⟩) ∧
    returnsApiError (parse_json_response (fun _ => none)
        (⟨500, none, Except.error ⟨"decode failed"⟩, Except.error ⟨"connection reset"⟩⟩ :
          HttpResponse Unit)) = false := by
  refine ⟨rfl, rfl⟩

/--
Claim C4 (amended): a response with status in `[200,300)` whose body decodes
as the declared type is returned as success; a decode failure on such a
status is a `Transport` error, not an API error; a status outside
`[200,300)` yields the API error built from the status, parsed error body,
and raw text when the body reads as text, and a `Transport` error when the
body read itself fails.
-/
theorem json_response_classification :
    ∀ {T : Type} (fromStr : String → Option ErrorBody) (st : Nat) (loc : Option String)
      (rj : Except UreqError T) (rts : Except UreqError String),
      parse_json_response fromStr ⟨st, loc, rj, rts⟩ =
        if 200 ≤ st ∧ st < 300 then
          match rj with
          | .ok parsed => .ok parsed
          | .error err => .error (Error.Transport err)
        else
          match rts with
          | .ok body => .error (Error.Api st (fromStr body) (if body.isEmpty then none else some body))
          | .error err => .error (Error.Transport err) := by
  intro T fromStr st loc rj rts
  cases rj <;> cases rts <;> rfl

/--
Claim C7: a bodiless-success endpoint succeeds exactly when the status
equals the per-endpoint expected code — 202 for `reset_credentials`, 204 for
`delete_entitlement` and `delete_release` — with the body content (decode
and read outcomes) ignored on success; any other status, other 2xx codes
included, is not success.
-/
theorem empty_response_status_equality :
    (∀ {T : Type} (fromStr : String → Option ErrorBody) (loc : Option String)
        (rj : Except UreqError T) (rts : Except UreqError String) (e : Nat),
      parse_empty_response fromStr ⟨e, loc, rj, rts⟩ e = .ok ()) ∧
    (∀ {T : Type} (fromStr : String → Option ErrorBody) (r : HttpResponse T) (e : Nat),
      parse_empty_response fromStr r e = .ok () ↔ r.status = e) ∧
    (∀ {T : Type} (fromStr : String → Option ErrorBody) (r : HttpResponse T),
      reset_credentials_handle fromStr r = parse_empty_response fromStr r 202) ∧
    (∀ {T : Type} (fromStr : String → Option ErrorBody) (r : HttpResponse T),
      delete_entitlement_handle fromStr r = parse_empty_response fromStr r 204) ∧
    (∀ {T : Type} (fromStr : String → Option ErrorBody) (r : HttpResponse T),
      delete_release_handle fromStr r = parse_empty_response fromStr r 204) ∧
    (∀ (fromStr : String → Option ErrorBody) (loc : Option String)
        (rj : Except UreqError Unit) (rts : Except UreqError String),
      reset_credentials_handle fromStr ⟨202, loc, rj, rts⟩ = .ok ()) := by
  refine ⟨?_, ?_, fun _ _ => rfl, fun _ _ => rfl, fun _ _ => rfl, fun _ _ _ _ => rfl⟩
  · intros
    simp [parse_empty_response]
  · intro T fromStr r e
    cases r with
    | mk st loc rj rts =>
      simp only [parse_empty_response]
      split
      · simp_all
      · simp_all

/--
Claim C3: `resolve_download_token` returns the `Location` header's value on a
302 carrying one; returns the distinct `MissingLocationHeader` error (not an
`Api` error) on a 302 without one; and classifies any non-302 status via the
generic error path.
-/
theorem download_redirect_resolution :
    (∀ {T : Type} (fromStr : String → Option ErrorBody) (loc : String)
        (rj : Except UreqError T) (rts : Except UreqError String),
      resolve_download_token fromStr ⟨302, some loc, rj, rts⟩ = .ok { location := loc }) ∧
    (∀ {T : Type} (fromStr : String → Option ErrorBody)
        (rj : Except UreqError T) (rts : Except UreqError String),
      resolve_download_token fromStr ⟨302, none, rj, rts⟩ =
        .error Error.MissingLocationHeader) ∧
    (∀ {T : Type} (fromStr : String → Option ErrorBody) (r : HttpResponse T),
      r.status ≠ 302 →
        resolve_download_token fromStr r = .error (error_from_response fromStr r r.status)) ∧
    (∀ (st : Nat) (e : Option ErrorBody) (b : Option String),
      Error.MissingLocationHeader ≠ Error.Api st e b) := by
  refine ⟨fun _ _ _ _ => rfl, fun _ _ _ => rfl, ?_, by intros; simp⟩
  intro T fromStr r h
  simp [resolve_download_token, h]

/--
Witness for C3 at concrete inputs: a 404 response goes down the generic
error path, and a 302 with `Location: https://example/obj` resolves to that
location.
-/
theorem download_redirect_resolution_witness :
    resolve_download_token (fun _ => none)
        (⟨404, none, Except.ok (), Except.ok "not found"⟩ : HttpResponse Unit) =
      .error (error_from_response (fun _ => none)
        (⟨404, none, Except.ok (), Except.ok "not found"⟩ : HttpResponse Unit) 404) ∧
    resolve_download_token (fun _ => none)
        (⟨302, some "https://example/obj", Except.ok (), Except.ok ""⟩ : HttpResponse Unit) =
      .ok { location := "https://example/obj" } :=
  ⟨download_redirect_resolution.2.2.1 (fun _ => none)
      (⟨404, none, Except.ok (), Except.ok "not found"⟩ : HttpResponse Unit) (by decide),
    download_redirect_resolution.1 (fun _ => none) "https://example/obj"
      (Except.ok ()) (Except.ok "")⟩

/--
Claim C9: `upload_presigned_artifact` returns a `Transport` error when the
local file cannot be opened, with the result independent of the PUT outcome
(no network call is observable); when the file opens and the PUT completes,
any status in `[200,300)` is success and any other status yields the generic
API-path error.
-/
theorem presigned_upload_classification :
    (∀ (fromStr : String → Option ErrorBody) (err : UreqError)
        (put_result : Except UreqError (HttpResponse Unit)),
      upload_presigned_artifact fromStr (.error err) put_result =
        .error (Error.Transport err)) ∧
    (∀ (fromStr : String → Option ErrorBody) (file : FileHandle) (resp : HttpResponse Unit),
      upload_presigned_artifact fromStr (.ok file) (.ok resp) =
        if 200 ≤ resp.status ∧ resp.status < 300 then .ok ()
        else .error (error_from_response fromStr resp resp.status)) :=
  ⟨fun _ _ _ => rfl, fun _ _ _ => rfl⟩

/-- Rust `str::trim`: drop leading and trailing whitespace characters. -/
def trimChars (cs : List Char) : List Char :=
  ((cs.dropWhile Char.isWhitespace).reverse.dropWhile Char.isWhitespace).reverse

/-- Rust `str::trim_end_matches('/')`: drop every trailing `'/'`. -/
def trimEndSlashes (cs : List Char) : List Char :=
  (cs.reverse.dropWhile (fun c => c = '/')).reverse

/--
`normalize_base_url` in `client.rs`: trim surrounding whitespace, strip
trailing slashes, then fail unless the result is nonempty and starts with
`http://` or `https://`.
-/
def normalize_base_url (base_url : String) : Except Error String :=
  let trimmed := trimEndSlashes (trimChars base_url.data)
  if trimmed.isEmpty then
    .error (Error.InvalidBaseUrl base_url)
  else if !("http://".data.isPrefixOf trimmed || "https://".data.isPrefixOf trimmed) then
    .error (Error.InvalidBaseUrl base_url)
  else
    .ok (String.mk trimmed)

/--
Claim C5: client construction normalizes the base URL by trimming
surrounding whitespace and removing trailing slashes, failing with the
configuration error exactly when the result is empty or lacks an
`http://`/`https://` scheme; any successful result is the normalized string;
and in particular `""`, `"  "` and `"ftp://host"` fail while
`"https://host/"` normalizes to `"https://host"`.
-/
theorem base_url_normalization :
    (∀ s : String,
      normalize_base_url s = .error (Error.InvalidBaseUrl s) ↔
        (trimEndSlashes (trimChars s.data) = [] ∨
          ("http://".data.isPrefixOf (trimEndSlashes (trimChars s.data)) = false ∧
           "https://".data.isPrefixOf (trimEndSlashes (trimChars s.data)) = false))) ∧
    (∀ s : String,
      normalize_base_url s = .error (Error.InvalidBaseUrl s) ∨
        normalize_base_url s = .ok (String.mk (trimEndSlashes (trimChars s.data)))) ∧
    normalize_base_url "" = .error (Error.InvalidBaseUrl "") ∧
    normalize_base_url "  " = .error (Error.InvalidBaseUrl "  ") ∧
    normalize_base_url "ftp://host" = .error (Error.InvalidBaseUrl "ftp://host") ∧
    normalize_base_url "https://host/" = .ok "https://host" := by
  refine ⟨?_, ?_, rfl, rfl, rfl, rfl⟩
  · intro s
    simp only [normalize_base_url]
    split
    · simp_all [List.isEmpty_iff]
    · split
      · simp_all [List.isEmpty_iff]
      · simp_all [List.isEmpty_iff]
  · intro s
    simp only [normalize_base_url]
    split
    · exact Or.inl rfl
    · split
      · exact Or.inl rfl
      · exact Or.inr rfl

/-- An optional query field rendered as zero or one query parameters. -/
def optQ (key : String) (value? : Option String) : List (String × String) :=
  match value? with
  | some value => [(key, value)]
  | none => []

/-- The `if let Some(v) = field { request.query(key, v) }` pattern. -/
def addQueryOpt (request : RequestBuilder) (key : String) (value? : Option String) :
    RequestBuilder :=
  match value? with
  | some value => request.query key value
  | none => request

/-- `ReleaseListQuery` in `models.rs` (i32 fields modelled as `Int`). -/
structure ReleaseListQuery where
  product : Option String
  version : Option String
  status : Option String
  include_artifacts : Option Bool
  limit : Option Int
  offset : Option Int
deriving DecidableEq, Repr

/-- `AuditEventListQuery` in `models.rs` (i64/i32 fields modelled as `Int`). -/
structure AuditEventListQuery where
  customer_id : Option String
  actor : Option String
  event : Option String
  created_from : Option Int
  created_to : Option Int
  limit : Option Int
  offset : Option Int
deriving DecidableEq, Repr

/-- `AdminCustomerListQuery` in `models.rs`. -/
structure AdminCustomerListQuery where
  customer_id : Option String
  name : Option String
  plan : Option String
  limit : Option Int
  offset : Option Int
deriving DecidableEq, Repr

/-- `UserListQuery` in `models.rs`. -/
structure UserListQuery where
  customer_id : Option String
  email : Option String
  status : Option String
  keycloak_user_id : Option String
  created_from : Option Int
  created_to : Option Int
  limit : Option Int
  cursor : Option String
deriving DecidableEq, Repr

/-- `EntitlementListQuery` in `models.rs`. -/
structure EntitlementListQuery where
  product : Option String
  limit : Option Int
  offset : Option Int
deriving DecidableEq, Repr

/-- Request assembly of `Client::list_releases` (booleans as `"true"`/`"false"`). -/
def list_releases_request (c : Client) (query : ReleaseListQuery) : RequestBuilder :=
  let request := apply_headers c newRequest
  let request := addQueryOpt request "product" query.product
  let request := addQueryOpt request "version" query.version
  let request := addQueryOpt request "status" query.status
  let request := addQueryOpt request "include_artifacts"
    (query.include_artifacts.map (fun value => if value then "true" else "false"))
  let request := addQueryOpt request "limit" (query.limit.map (fun value => toString value))
  let request := addQueryOpt request "offset" (query.offset.map (fun value => toString value))
  request

/-- Request assembly of `Client::list_audit_events`. -/
def list_audit_events_request (c : Client) (query : AuditEventListQuery) : RequestBuilder :=
  let request := apply_headers c newRequest
  let request := addQueryOpt request "customer_id" query.customer_id
  let request := addQueryOpt request "actor" query.actor
  let request := addQueryOpt request "event" query.event
  let request := addQueryOpt request "created_from"
    (query.created_from.map (fun value => toString value))
  let request := addQueryOpt request "created_to"
    (query.created_to.map (fun value => toString value))
  let request := addQueryOpt request "limit" (query.limit.map (fun value => toString value))
  let request := addQueryOpt request "offset" (query.offset.map (fun value => toString value))
  request

/-- Request assembly of `Client::list_customers`. -/
def list_customers_request (c : Client) (query : AdminCustomerListQuery) : RequestBuilder :=
  let request := apply_headers c newRequest
  let request := addQueryOpt request "customer_id" query.customer_id
  let request := addQueryOpt request "name" query.name
  let request := addQueryOpt request "plan" query.plan
  let request := addQueryOpt request "limit" (query.limit.map (fun value => toString value))
  let request := addQueryOpt request "offset" (query.offset.map (fun value => toString value))
  request

/-- Request assembly of `Client::list_users`. -/
def list_users_request (c : Client) (query : UserListQuery) : RequestBuilder :=
  let request := apply_headers c newRequest
  let request := addQueryOpt request "customer_id" query.customer_id
  let request := addQueryOpt request "email" query.email
  let request := addQueryOpt request "status" query.status
  let request := addQueryOpt request "keycloak_user_id" query.keycloak_user_id
  let request := addQueryOpt request "created_from"
    (query.created_from.map (fun value => toString value))
  let request := addQueryOpt request "created_to"
    (query.created_to.map (fun value => toString value))
  let request := addQueryOpt request "limit" (query.limit.map (fun value => toString value))
  let request := addQueryOpt request "cursor" query.cursor
  request

/-- Request assembly of `Client::list_entitlements` (query portion). -/
def list_entitlements_request (c : Client) (query : EntitlementListQuery) : RequestBuilder :=
  let request := apply_headers c newRequest
  let request := addQueryOpt request "product" query.product
  let request := addQueryOpt request "limit" (query.limit.map (fun value => toString value))
  let request := addQueryOpt request "offset" (query.offset.map (fun value => toString value))
  request

theorem addQueryOpt_queryParams (r : RequestBuilder) (k : String) (o : Option String) :
    (addQueryOpt r k o).queryParams = r.queryParams ++ optQ k o := by
  cases o <;> simp [addQueryOpt, optQ, RequestBuilder.query]

theorem apply_headers_queryParams (c : Client) (r : RequestBuilder) :
    (apply_headers c r).queryParams = r.queryParams := by
  cases hu : c.user_agent <;> cases ha : c.auth <;>
    simp [apply_headers, apply_auth, hu, ha, RequestBuilder.header]

/--
Claim C6: for every list endpoint, each optional query field contributes its
parameter exactly when it is present, in source order, with strings passed
through, booleans encoded as `"true"`/`"false"`, and integers (timestamps
included) encoded in base-10 decimal via `toString`.
-/
theorem query_param_encoding :
    (∀ (key value : String), optQ key (some value) = [(key, value)]) ∧
    (∀ (key : String), optQ key none = []) ∧
    (∀ (key : String) (o : Option String), optQ key o = [] ↔ o = none) ∧
    (∀ (c : Client) (q : ReleaseListQuery),
      (list_releases_request c q).queryParams =
        optQ "product" q.product ++ optQ "version" q.version ++ optQ "status" q.status ++
        optQ "include_artifacts"
          (q.include_artifacts.map (fun value => if value then "true" else "false")) ++
        optQ "limit" (q.limit.map (fun value => toString value)) ++
        optQ "offset" (q.offset.map (fun value => toString value))) ∧
    (∀ (c : Client) (q : AuditEventListQuery),
      (list_audit_events_request c q).queryParams =
        optQ "customer_id" q.customer_id ++ optQ "actor" q.actor ++ optQ "event" q.event ++
        optQ "created_from" (q.created_from.map (fun value => toString value)) ++
        optQ "created_to" (q.created_to.map (fun value => toString value)) ++
        optQ "limit" (q.limit.map (fun value => toString value)) ++
        optQ "offset" (q.offset.map (fun value => toString value))) ∧
    (∀ (c : Client) (q : AdminCustomerListQuery),
      (list_customers_request c q).queryParams =
        optQ "customer_id" q.customer_id ++ optQ "name" q.name ++ optQ "plan" q.plan ++
        optQ "limit" (q.limit.map (fun value => toString value)) ++
        optQ "offset" (q.offset.map (fun value => toString value))) ∧
    (∀ (c : Client) (q : UserListQuery),
      (list_users_request c q).queryParams =
        optQ "customer_id" q.customer_id ++ optQ "email" q.email ++ optQ "status" q.status ++
        optQ "keycloak_user_id" q.keycloak_user_id ++
        optQ "created_from" (q.created_from.map (fun value => toString value)) ++
        optQ "created_to" (q.created_to.map (fun value => toString value)) ++
        optQ "limit" (q.limit.map (fun value => toString value)) ++
        optQ "cursor" q.cursor) ∧
    (∀ (c : Client) (q : EntitlementListQuery),
      (list_entitlements_request c q).queryParams =
        optQ "product" q.product ++
        optQ "limit" (q.limit.map (fun value => toString value)) ++
        optQ "offset" (q.offset.map (fun value => toString value))) := by
  refine ⟨fun _ _ => rfl, fun _ => rfl, ?_, ?_, ?_, ?_, ?_, ?_⟩
  · intro key o
    cases o <;> simp [optQ]
  all_goals
    intro c q
    simp [list_releases_request, list_audit_events_request, list_customers_request,
      list_users_request, list_entitlements_request, addQueryOpt_queryParams,
      apply_headers_queryParams, newRequest, List.append_assoc]

/--
Claim C8: `with_auth` returns a new client whose auth is the given value and
whose base URL, user-agent and transport agent are those of the original;
being a pure total function on an unrestricted client value, it performs no
base-URL re-validation and cannot fail, and the original value is untouched.
-/
theorem with_auth_frame :
    ∀ (c : Client) (a : Auth),
      (c.with_auth a).auth = a ∧
      (c.with_auth a).base_url = c.base_url ∧
      (c.with_auth a).user_agent = c.user_agent ∧
      (c.with_auth a).agent = c.agent ∧
      c.with_auth a =
        { base_url := c.base_url, auth := a, user_agent := c.user_agent, agent := c.agent } := by
  intro c a
  cases c
  exact ⟨rfl, rfl, rfl, rfl, rfl⟩

end Releasy
